import Mathlib

/-!
Shallow embedding of the bidirectional file-synchronization engine of
`docs/mcp-server/examples/file-sync.py` (classes `FileMetadata`,
`MCPFileSyncClient`, `FileSyncManager`), together with proofs of the
behavioural properties stated for it.

Timestamps are modelled as integers (the program only ever compares them
for equality), file contents and checksums as strings, and the Python
dictionaries as association lists or as functions into `Option`.
-/

set_option maxHeartbeats 1000000

namespace FileSync

/-- Embeds class `FileMetadata` (file-sync.py lines 43-71): path, size,
modification time, content checksum, and the advisory sync state. -/
structure FileMetadata where
  path : String
  size : Nat
  mtime : Int
  checksum : String
  sync_state : String
  deriving Repr, DecidableEq

/-- Embeds the action dictionaries produced by the planner
(`{'action': ..., 'path': ..., 'reason': ...}`). -/
structure SyncAction where
  action : String
  path : String
  reason : String
  deriving Repr, DecidableEq

/-- Embeds `FileSyncManager.handle_delete_conflict` (lines 557-568):
under policy `ask` the conflict is skipped, otherwise it is resolved in
favour of the deletion. -/
def handle_delete_conflict (conflict_resolution relative_path conflict_type : String) :
    SyncAction :=
  if conflict_resolution = "ask" then
    ⟨"skip", relative_path, "delete_conflict"⟩
  else if conflict_type = "remote_deleted" then
    ⟨"delete_local", relative_path, "sync_deletion"⟩
  else
    ⟨"delete_remote", relative_path, "sync_deletion"⟩

/-- Embeds `FileSyncManager.handle_content_conflict` (lines 570-584).
The two metadata arguments are kept even though the Python body never
reads them. -/
def handle_content_conflict (conflict_resolution relative_path : String)
    (_local_meta _remote_meta : FileMetadata) : SyncAction :=
  if conflict_resolution = "local_wins" then
    ⟨"upload", relative_path, "conflict_local_wins"⟩
  else if conflict_resolution = "remote_wins" then
    ⟨"download", relative_path, "conflict_remote_wins"⟩
  else if conflict_resolution = "keep_both" then
    ⟨"keep_both", relative_path, "conflict_keep_both"⟩
  else
    ⟨"skip", relative_path, "conflict_requires_resolution"⟩

/-- Embeds `FileSyncManager.determine_sync_action` (lines 493-555): the
three-way comparison of local, remote and stored metadata for one path.
`local_changed` is `local_meta.mtime != stored_meta.mtime or
local_meta.checksum != stored_meta.checksum`; `remote_changed` is
`remote_meta.mtime != stored_meta.mtime`. -/
def determine_sync_action (conflict_resolution relative_path : String)
    (local_meta remote_meta stored_meta : Option FileMetadata) : Option SyncAction :=
  match local_meta, remote_meta, stored_meta with
  | some _, none, none =>
      some ⟨"upload", relative_path, "new_local_file"⟩
  | some _, none, some _ =>
      some (handle_delete_conflict conflict_resolution relative_path "remote_deleted")
  | none, some _, none =>
      some ⟨"download", relative_path, "new_remote_file"⟩
  | none, some _, some _ =>
      some (handle_delete_conflict conflict_resolution relative_path "local_deleted")
  | some lm, some rm, none =>
      some (handle_content_conflict conflict_resolution relative_path lm rm)
  | some lm, some rm, some sm =>
      if (lm.mtime ≠ sm.mtime ∨ lm.checksum ≠ sm.checksum) ∧ ¬(rm.mtime ≠ sm.mtime) then
        some ⟨"upload", relative_path, "local_modified"⟩
      else if (rm.mtime ≠ sm.mtime) ∧ ¬(lm.mtime ≠ sm.mtime ∨ lm.checksum ≠ sm.checksum) then
        some ⟨"download", relative_path, "remote_modified"⟩
      else if (lm.mtime ≠ sm.mtime ∨ lm.checksum ≠ sm.checksum) ∧ (rm.mtime ≠ sm.mtime) then
        some (handle_content_conflict conflict_resolution relative_path lm rm)
      else
        none
  | none, none, _ => none

/-- Embeds `FileSyncManager.plan_sync_actions` (lines 472-491): iterate
over the union of the local and remote key sets and collect the actions
the planner returns.  The stored snapshot is the manager's
`file_metadata` dictionary, modelled as a lookup function. -/
def plan_sync_actions (conflict_resolution : String)
    (local_files remote_files : List (String × FileMetadata))
    (stored : String → Option FileMetadata) : List SyncAction :=
  ((local_files.map Prod.fst ++ remote_files.map Prod.fst).dedup).filterMap fun p =>
    determine_sync_action conflict_resolution p
      (local_files.lookup p) (remote_files.lookup p) (stored p)

/-- Embeds the manager's `stats` dictionary (lines 310-315). -/
structure Stats where
  files_synced : Nat
  conflicts_resolved : Nat
  errors : Nat
  last_sync : Option String
  deriving Repr, DecidableEq

/-- Embeds `FileSyncManager.execute_sync_actions` (lines 586-595): each
action is attempted; success increments `files_synced`, failure is caught
and increments `errors`, and the loop continues either way.  Whether an
individual `execute_single_action` call raises is decided by the I/O
environment, abstracted as the `outcome` predicate. -/
def execute_sync_actions (outcome : SyncAction → Bool) (stats : Stats) :
    List SyncAction → Stats
  | [] => stats
  | a :: rest =>
      let stats1 :=
        if outcome a then { stats with files_synced := stats.files_synced + 1 }
        else { stats with errors := stats.errors + 1 }
      execute_sync_actions outcome stats1 rest

/-- The mutable fields of `FileSyncManager` the claims are about
(lines 288-315): the re-entrance guard, the stored snapshot
`file_metadata`, the statistics, and the configured conflict policy. -/
structure ManagerState where
  is_syncing : Bool
  file_metadata : String → Option FileMetadata
  stats : Stats
  conflict_resolution : String

/-- Stats fields as initialised by `FileSyncManager.__init__`
(lines 310-315): all counters zero, no last-sync timestamp. -/
def initial_stats : Stats := ⟨0, 0, 0, none⟩

/-- Manager state as built by `FileSyncManager.__init__` (lines 288-315):
guard down, empty snapshot, zero statistics, default policy `ask`. -/
def initial_manager : ManagerState :=
  { is_syncing := false
    file_metadata := fun _ => none
    stats := initial_stats
    conflict_resolution := "ask" }

/-- The content of the persisted `.lokus-sync-metadata.json` file as
`save_metadata` writes it and `load_metadata` reads it: a `files` map and
an optional `stats` block (`data.get('stats', {})`). -/
structure PersistedData where
  files : List (String × FileMetadata)
  stats : Option Stats

/-- Embeds `FileSyncManager.load_metadata` (lines 337-354): if the
metadata file exists, `file_metadata` is rebuilt from its `files` map and
`self.stats.update(data.get('stats', {}))` overwrites the statistics with
the persisted block when one is present. -/
def load_metadata (persisted : Option PersistedData) (st : ManagerState) : ManagerState :=
  match persisted with
  | none => st
  | some d =>
      { st with
        file_metadata := fun p => d.files.lookup p
        stats := d.stats.getD st.stats }

/-- Embeds `self.file_metadata.update(local_files)` (line 457): Python
`dict.update` overwrites the keys present in `local_files` and keeps
every other stored entry. -/
def dict_update (stored : String → Option FileMetadata)
    (local_files : List (String × FileMetadata)) : String → Option FileMetadata :=
  fun p =>
    match local_files.lookup p with
    | some m => some m
    | none => stored p

/-- The I/O environment one full pass observes: the local scan result,
the remote listing, which action executions succeed, and the wall-clock
reading used for `last_sync`. -/
structure PassEnv where
  local_files : List (String × FileMetadata)
  remote_files : List (String × FileMetadata)
  outcome : SyncAction → Bool
  now : String

/-- The body of `FileSyncManager.sync_files` (lines 445-470): scan both
sides, plan, execute, merge the local scan into the snapshot, stamp
`last_sync`, and lower the guard in the `finally` block.  Returns the new
manager state and the executed action list. -/
def run_pass (env : PassEnv) (st : ManagerState) : ManagerState × List SyncAction :=
  let actions := plan_sync_actions st.conflict_resolution
      env.local_files env.remote_files st.file_metadata
  let stats1 := execute_sync_actions env.outcome st.stats actions
  ({ st with
      is_syncing := false
      file_metadata := dict_update st.file_metadata env.local_files
      stats := { stats1 with last_sync := some env.now } }, actions)

/-- Embeds `FileSyncManager.sync_files` (lines 436-470): if the guard is
already up the request is dropped (`return`, no actions executed),
otherwise the guard is raised and the pass body runs. -/
def sync_files (env : PassEnv) (st : ManagerState) : ManagerState × List SyncAction :=
  if st.is_syncing then (st, [])
  else run_pass env { st with is_syncing := true }

/-- The phases a full pass moves through inside `sync_files`: scanning
(lines 447-448), planning (line 451), executing (line 454). -/
inductive PassPhase where
  | idle
  | scanning
  | planning
  | executing
  deriving Repr, DecidableEq

/-- Control state of `sync_files` at suspension points: the current
phase together with the `is_syncing` boolean guard. -/
structure GuardState where
  phase : PassPhase
  is_syncing : Bool
  deriving Repr, DecidableEq

/-- Events driving the pass state machine: a new full-pass request
(a call to `sync_files`), or the in-progress pass advancing one phase. -/
inductive PassEvent where
  | request
  | advance
  deriving Repr, DecidableEq

/-- Small-step control flow of `sync_files`: a request finding the guard
up is dropped with no state change (lines 438-440); otherwise the guard
is raised and scanning begins (line 442).  An advance moves scan → plan →
execute; leaving the execute phase runs the `finally` block which lowers
the guard (line 470). -/
def guard_step : PassEvent → GuardState → GuardState
  | .request, st => if st.is_syncing then st else { phase := .scanning, is_syncing := true }
  | .advance, st =>
      match st.phase with
      | .idle => st
      | .scanning => { st with phase := .planning }
      | .planning => { st with phase := .executing }
      | .executing => { phase := .idle, is_syncing := false }

/-- Guard invariant: `is_syncing` is up exactly while a pass is in one of
its three phases. -/
def guard_inv (st : GuardState) : Prop := st.is_syncing = true ↔ st.phase ≠ .idle

/-- The mutable fields of `MCPFileSyncClient` the claims are about
(lines 77-84): the next correlation id, the keys of `pending_requests`,
and whether the websocket channel is open. -/
structure ClientState where
  message_id : Nat
  pending : List Nat
  ws_open : Bool
  deriving Repr, DecidableEq

/-- The `timeout=30.0` passed to `asyncio.wait_for` in `send_request`
(line 156). -/
def REQUEST_TIMEOUT : Nat := 30

/-- Result of one `send_request` call: the client state after the call
returns, the time at which it failed with `TimeoutError` (if it did),
and the correlation id it allocated. -/
structure SendOutcome where
  state : ClientState
  failed_at : Option Nat
  id : Nat
  deriving Repr, DecidableEq

/-- Embeds `MCPFileSyncClient.send_request` (lines 132-160): allocate the
next correlation id, register a pending waiter under it, send, and wait.
`response_arrival` is the time the matching response arrives, `none` if
it never does.  A response within `REQUEST_TIMEOUT` resolves the waiter
(popped by `_handle_messages`, line 171); otherwise `asyncio.wait_for`
fires at exactly `REQUEST_TIMEOUT`, the waiter is popped (line 159) and
`TimeoutError` is raised (line 160).  Neither path closes the channel. -/
def send_request (st : ClientState) (response_arrival : Option Nat) : SendOutcome :=
  let id := st.message_id
  let st1 : ClientState :=
    { st with message_id := st.message_id + 1, pending := id :: st.pending }
  match response_arrival with
  | some t =>
      if t ≤ REQUEST_TIMEOUT then
        { state := { st1 with pending := st1.pending.erase id }, failed_at := none, id := id }
      else
        { state := { st1 with pending := st1.pending.erase id }
          failed_at := some REQUEST_TIMEOUT, id := id }
  | none =>
      { state := { st1 with pending := st1.pending.erase id }
        failed_at := some REQUEST_TIMEOUT, id := id }

/-- Embeds the response branch of `MCPFileSyncClient._handle_messages`
(lines 168-180): `pending_requests.pop(message_id, None)` and, only when
a waiter was found, settle it.  Returns the new state and whether a
waiter was settled; a message whose id has no waiter changes nothing. -/
def handle_response (st : ClientState) (id : Nat) : ClientState × Bool :=
  if id ∈ st.pending then ({ st with pending := st.pending.erase id }, true)
  else (st, false)

/-- The final component of a path string: the part after the last `/`
(Python `Path.name`). -/
def lastComponent (p : String) : String :=
  String.mk ((p.toList.reverse.takeWhile (fun c => c ≠ '/')).reverse)

/-- Everything up to and including the last `/` of a path string. -/
def dirPart (p : String) : String :=
  String.mk ((p.toList.reverse.dropWhile (fun c => c ≠ '/')).reverse)

/-- Python `Path.suffix` of a file name: the part of the name from its
last dot, provided that dot is neither the first nor the last character;
otherwise the empty string. -/
def pySuffixName (name : String) : String :=
  if 0 < name.toList.reverse.indexOf '.' ∧
      name.toList.reverse.indexOf '.' < name.toList.length - 1 then
    String.mk (name.toList.drop (name.toList.length - 1 - name.toList.reverse.indexOf '.'))
  else ""

/-- Python `Path.with_suffix`: drop the name's current suffix and append
the new one, keeping the directory part. -/
def pyWithSuffix (p newSuffix : String) : String :=
  dirPart p ++
    String.mk ((lastComponent p).toList.take
      ((lastComponent p).toList.length - (pySuffixName (lastComponent p)).toList.length)) ++
    newSuffix

/-- The conflict-copy name built in `create_conflict_copy` (line 668):
`local_path.with_suffix(f'.conflict_local_{timestamp}{local_path.suffix}')`. -/
def conflict_name (relative_path timestamp : String) : String :=
  pyWithSuffix relative_path
    (".conflict_local_" ++ timestamp ++ pySuffixName (lastComponent relative_path))

/-- The local tree as a map from relative path to file content;
writing creates or overwrites one path. -/
def fsWrite (fs : String → Option String) (p c : String) : String → Option String :=
  fun q => if q = p then some c else fs q

/-- Embeds `FileSyncManager.create_conflict_copy` (lines 662-678): if the
local file exists its content is first copied to the conflict-suffixed
name, and only then is the remote content written at the original path
(the `download_file` call, line 676). -/
def create_conflict_copy (fs : String → Option String)
    (relative_path timestamp remote_content : String) : String → Option String :=
  let conflict_path := conflict_name relative_path timestamp
  let fs1 :=
    match fs relative_path with
    | some content => fsWrite fs conflict_path content
    | none => fs
  fsWrite fs1 relative_path remote_content

/-- One entry produced by walking the local tree (`rglob('*')`,
line 386): its relative path, whether it is a regular file, its stat
data and its content. -/
structure LocalEntry where
  path : String
  is_file : Bool
  size : Nat
  mtime : Int
  content : String
  deriving Repr, DecidableEq

/-- Python `name.startswith('.')` for the one-character needle used by
the code: true iff the first character is a dot.  Written as a direct
head test so that concrete instances evaluate by `decide`. -/
def startswith_dot (s : String) : Bool :=
  match s.toList with
  | [] => false
  | c :: _ => c == '.'

/-- Embeds `FileSyncManager.get_local_files` (lines 382-403): keep the
regular files whose name does not start with a dot and record their
metadata, with `calculate_file_checksum` abstracted as `md5`.  The
constructor sets `sync_state` to `'unknown'` (line 51). -/
def get_local_files (md5 : String → String) (entries : List LocalEntry) :
    List (String × FileMetadata) :=
  (entries.filter fun e =>
      e.is_file && !(startswith_dot (lastComponent e.path))).map fun e =>
    (e.path, ⟨e.path, e.size, e.mtime, md5 e.content, "unknown"⟩)

/-- The one remote operation the incremental path performs. -/
inductive SingleFileOp where
  | upload (path : String)
  | delete_remote (path : String)
  deriving Repr, DecidableEq

/-- Embeds `FileSyncManager.sync_single_file` (lines 704-720): upload the
file if it still exists locally, otherwise delete it remotely. -/
def sync_single_file (relative_path : String) (local_exists : Bool) : SingleFileOp :=
  if local_exists then .upload relative_path else .delete_remote relative_path

/-- Embeds `FileSyncManager.handle_local_change` (lines 680-699): a path
whose name starts with a dot returns immediately (line 686-687);
otherwise the path enters `pending_changes`, and after the debounce
delay, if still pending, `sync_single_file` runs and the path is
discarded.  Returns the new pending set and the operation performed. -/
def handle_local_change (pending_changes : List String) (relative_path : String)
    (local_exists : Bool) : List String × Option SingleFileOp :=
  if startswith_dot (lastComponent relative_path) then (pending_changes, none)
  else
    let pending1 :=
      if relative_path ∈ pending_changes then pending_changes
      else relative_path :: pending_changes
    if relative_path ∈ pending1 then
      (pending1.erase relative_path, some (sync_single_file relative_path local_exists))
    else (pending1, none)

/-- Every branch of `handle_delete_conflict` returns an action for the
path it was asked about. -/
lemma handle_delete_conflict_path (cr p ct : String) :
    (handle_delete_conflict cr p ct).path = p := by
  unfold handle_delete_conflict; split_ifs <;> rfl

/-- Every branch of `handle_content_conflict` returns an action for the
path it was asked about. -/
lemma handle_content_conflict_path (cr p : String) (lm rm : FileMetadata) :
    (handle_content_conflict cr p lm rm).path = p := by
  unfold handle_content_conflict; split_ifs <;> rfl

/-- The planner only ever emits an action whose `path` field is the path
it was invoked on. -/
lemma determine_sync_action_path {cr p : String} {l r s : Option FileMetadata}
    {a : SyncAction} (h : determine_sync_action cr p l r s = some a) : a.path = p := by
  cases l <;> cases r <;> cases s <;>
    simp only [determine_sync_action] at h <;>
    try exact Option.noConfusion h
  all_goals try split_ifs at h
  all_goals injection h with h
  all_goals subst h
  all_goals
    first
      | rfl
      | exact handle_delete_conflict_path ..
      | exact handle_content_conflict_path ..

/-- C1: for a path present locally and remotely with a stored snapshot
entry, with "local changed" := local mtime or checksum differs from
stored and "remote changed" := remote mtime differs from stored: only
local changed yields `upload` with reason `local_modified`, only remote
changed yields `download` with reason `remote_modified`, and both
changed yields the content-conflict resolution. -/
theorem claim1_three_way_change_detection (cr p : String) (lm rm sm : FileMetadata) :
    (((lm.mtime ≠ sm.mtime ∨ lm.checksum ≠ sm.checksum) ∧ rm.mtime = sm.mtime) →
      determine_sync_action cr p (some lm) (some rm) (some sm) =
        some ⟨"upload", p, "local_modified"⟩) ∧
    ((lm.mtime = sm.mtime ∧ lm.checksum = sm.checksum ∧ rm.mtime ≠ sm.mtime) →
      determine_sync_action cr p (some lm) (some rm) (some sm) =
        some ⟨"download", p, "remote_modified"⟩) ∧
    (((lm.mtime ≠ sm.mtime ∨ lm.checksum ≠ sm.checksum) ∧ rm.mtime ≠ sm.mtime) →
      determine_sync_action cr p (some lm) (some rm) (some sm) =
        some (handle_content_conflict cr p lm rm)) := by
  refine ⟨fun h => ?_, fun h => ?_, fun h => ?_⟩ <;>
    simp only [determine_sync_action] <;>
    split_ifs <;> first | rfl | tauto

/-- Witness for C1 at the spec's example inputs: stored mtime 0 and hash
"H0"; a locally modified file uploads, a remotely modified file
downloads, and a doubly modified file goes to conflict resolution. -/
theorem claim1_three_way_change_detection_witness :
    determine_sync_action "ask" "a.md"
        (some ⟨"a.md", 1, 1, "H1", "unknown"⟩) (some ⟨"a.md", 0, 0, "", "unknown"⟩)
        (some ⟨"a.md", 1, 0, "H0", "unknown"⟩) =
      some ⟨"upload", "a.md", "local_modified"⟩ ∧
    determine_sync_action "ask" "a.md"
        (some ⟨"a.md", 1, 0, "H0", "unknown"⟩) (some ⟨"a.md", 0, 5, "", "unknown"⟩)
        (some ⟨"a.md", 1, 0, "H0", "unknown"⟩) =
      some ⟨"download", "a.md", "remote_modified"⟩ ∧
    determine_sync_action "ask" "a.md"
        (some ⟨"a.md", 1, 1, "H1", "unknown"⟩) (some ⟨"a.md", 0, 5, "", "unknown"⟩)
        (some ⟨"a.md", 1, 0, "H0", "unknown"⟩) =
      some (handle_content_conflict "ask" "a.md"
        ⟨"a.md", 1, 1, "H1", "unknown"⟩ ⟨"a.md", 0, 5, "", "unknown"⟩) :=
  ⟨(claim1_three_way_change_detection "ask" "a.md" _ _ _).1 (by decide),
   (claim1_three_way_change_detection "ask" "a.md" _ _ _).2.1 (by decide),
   (claim1_three_way_change_detection "ask" "a.md" _ _ _).2.2 (by decide)⟩

/-- C2: under the default policy `ask`, delete conflicts and content
conflicts both resolve to `skip` with a recorded reason; a content
conflict resolves to `upload` under `local_wins`, `download` under
`remote_wins`, and `keep_both` under `keep_both`. -/
theorem claim2_conflict_policy_resolution (p ct : String) (lm rm : FileMetadata) :
    initial_manager.conflict_resolution = "ask" ∧
    handle_delete_conflict "ask" p ct = ⟨"skip", p, "delete_conflict"⟩ ∧
    handle_content_conflict "ask" p lm rm = ⟨"skip", p, "conflict_requires_resolution"⟩ ∧
    handle_content_conflict "local_wins" p lm rm = ⟨"upload", p, "conflict_local_wins"⟩ ∧
    handle_content_conflict "remote_wins" p lm rm = ⟨"download", p, "conflict_remote_wins"⟩ ∧
    handle_content_conflict "keep_both" p lm rm = ⟨"keep_both", p, "conflict_keep_both"⟩ := by
  refine ⟨rfl, rfl, ?_, rfl, ?_, ?_⟩ <;> rfl

/-- C3: a path whose local, remote and stored metadata agree on
modification time and content hash gets no action, and the plan produced
by `plan_sync_actions` never contains an action for a path absent from
both the local and the remote listing. -/
theorem claim3_converged_state_yields_nothing :
    (∀ (cr p : String) (lm rm sm : FileMetadata),
        lm.mtime = sm.mtime → lm.checksum = sm.checksum → rm.mtime = sm.mtime →
        determine_sync_action cr p (some lm) (some rm) (some sm) = none) ∧
    (∀ (cr p : String) (local_files remote_files : List (String × FileMetadata))
        (stored : String → Option FileMetadata),
        p ∉ local_files.map Prod.fst → p ∉ remote_files.map Prod.fst →
        ∀ a ∈ plan_sync_actions cr local_files remote_files stored, a.path ≠ p) := by
  constructor
  · intro cr p lm rm sm h1 h2 h3
    simp only [determine_sync_action]
    split_ifs <;> tauto
  · intro cr p local_files remote_files stored hl hr a ha
    rw [plan_sync_actions, List.mem_filterMap] at ha
    obtain ⟨q, hq, hfa⟩ := ha
    rw [determine_sync_action_path hfa]
    rw [List.mem_dedup, List.mem_append] at hq
    rintro rfl
    rcases hq with hq | hq <;> [exact hl hq; exact hr hq]

/-- Witness for C3: identical metadata on all three sides produces no
action, and the plan of a one-file local listing contains no action for
an unrelated path. -/
theorem claim3_converged_state_yields_nothing_witness :
    determine_sync_action "ask" "a"
        (some ⟨"a", 1, 0, "H", "unknown"⟩) (some ⟨"a", 0, 0, "", "unknown"⟩)
        (some ⟨"a", 1, 0, "H", "unknown"⟩) = none ∧
    (⟨"upload", "b", "new_local_file"⟩ : SyncAction).path ≠ "a" :=
  ⟨claim3_converged_state_yields_nothing.1 "ask" "a" _ _ _ rfl rfl rfl,
   claim3_converged_state_yields_nothing.2 "ask" "a"
     [("b", ⟨"b", 1, 0, "H", "unknown"⟩)] [] (fun _ => none)
     (by decide) (by decide) _ (by decide)⟩

/-- Counting behaviour of the executor loop: every successful action adds
one to `files_synced`, every failing action adds one to `errors`, and the
remaining statistics fields are untouched.  Because every element of the
list is accounted for, no failure stops the loop. -/
lemma execute_sync_actions_counts (outcome : SyncAction → Bool) (stats : Stats)
    (actions : List SyncAction) :
    (execute_sync_actions outcome stats actions).files_synced
        = stats.files_synced + (actions.filter (fun a => outcome a)).length ∧
    (execute_sync_actions outcome stats actions).errors
        = stats.errors + (actions.filter (fun a => !outcome a)).length ∧
    (execute_sync_actions outcome stats actions).conflicts_resolved
        = stats.conflicts_resolved ∧
    (execute_sync_actions outcome stats actions).last_sync = stats.last_sync := by
  induction actions generalizing stats with
  | nil => simp [execute_sync_actions]
  | cons a rest ih =>
      simp only [execute_sync_actions, List.filter_cons]
      by_cases h : outcome a <;> simp [h, ih] <;> omega

/-- C7: executing a pass's action list is failure-isolated: each
successful action increments the synced counter, each failed action
increments the error counter, and every action of the list is accounted
for in one of the two counters — a failure never aborts the remaining
actions. -/
theorem claim7_partial_failure_isolation (outcome : SyncAction → Bool) (stats : Stats)
    (actions : List SyncAction) :
    (execute_sync_actions outcome stats actions).files_synced
        = stats.files_synced + (actions.filter (fun a => outcome a)).length ∧
    (execute_sync_actions outcome stats actions).errors
        = stats.errors + (actions.filter (fun a => !outcome a)).length ∧
    (actions.filter (fun a => outcome a)).length
        + (actions.filter (fun a => !outcome a)).length = actions.length :=
  ⟨(execute_sync_actions_counts outcome stats actions).1,
   (execute_sync_actions_counts outcome stats actions).2.1,
   (List.length_eq_length_filter_add (l := actions) (fun a => outcome a)).symm⟩

/-- C5: a full-pass request arriving while the guard is up is dropped
with the state untouched and nothing queued; a pass started with the
guard down finishes with the guard down again; and in the phase-level
machine the guard is up exactly during scanning/planning/executing, a
request during those phases is a no-op, and finishing the executing
phase lowers the guard. -/
theorem claim5_single_pass_guard :
    (∀ (env : PassEnv) (st : ManagerState), st.is_syncing = true →
        sync_files env st = (st, [])) ∧
    (∀ (env : PassEnv) (st : ManagerState), st.is_syncing = false →
        ((sync_files env st).1).is_syncing = false) ∧
    (∀ st : GuardState, guard_inv st → ∀ e, guard_inv (guard_step e st)) ∧
    (∀ st : GuardState, guard_inv st → st.phase ≠ PassPhase.idle →
        guard_step PassEvent.request st = st) ∧
    guard_step PassEvent.advance ⟨PassPhase.executing, true⟩
      = ⟨PassPhase.idle, false⟩ := by
  refine ⟨?_, ?_, ?_, ?_, rfl⟩
  · intro env st h
    simp [sync_files, h]
  · intro env st h
    simp [sync_files, h, run_pass]
  · intro st hinv e
    cases e with
    | request =>
        by_cases h : st.is_syncing
        · simpa [guard_step, h] using hinv
        · simp [guard_step, h, guard_inv]
    | advance =>
        cases hp : st.phase <;>
          simp_all [guard_step, guard_inv]
  · intro st hinv hphase
    simp [guard_step, hinv.mpr hphase]

/-- Witness for C5: a request against a busy manager returns it
unchanged, a request in the scanning phase is a no-op, and an idle start
ends idle. -/
theorem claim5_single_pass_guard_witness :
    sync_files ⟨[], [], fun _ => true, "t"⟩
        ⟨true, fun _ => none, initial_stats, "ask"⟩
      = (⟨true, fun _ => none, initial_stats, "ask"⟩, []) ∧
    guard_step PassEvent.request ⟨PassPhase.scanning, true⟩
      = ⟨PassPhase.scanning, true⟩ ∧
    (sync_files ⟨[], [], fun _ => true, "t"⟩
        ⟨false, fun _ => none, initial_stats, "ask"⟩).1.is_syncing = false :=
  ⟨claim5_single_pass_guard.1 _ _ rfl,
   claim5_single_pass_guard.2.2.2.1 ⟨PassPhase.scanning, true⟩
     (by constructor <;> intro <;> simp) (by simp),
   claim5_single_pass_guard.2.1 _ _ rfl⟩

/-- C6: a request whose response never arrives fails with a timeout at
exactly the configured 30 seconds; its pending waiter is removed, the
channel stays open, a late response carrying its correlation id settles
no waiter and changes nothing, and the id no longer occupies a waiter
slot. -/
theorem claim6_request_timeout (st : ClientState) (h : st.message_id ∉ st.pending) :
    (send_request st none).failed_at = some 30 ∧
    (send_request st none).state.pending = st.pending ∧
    (send_request st none).id ∉ (send_request st none).state.pending ∧
    (send_request st none).state.ws_open = st.ws_open ∧
    handle_response (send_request st none).state (send_request st none).id
      = ((send_request st none).state, false) ∧
    (send_request st none).state.message_id = st.message_id + 1 := by
  have hp : (send_request st none).state.pending = st.pending := by
    simp [send_request]
  have hid : (send_request st none).id = st.message_id := rfl
  refine ⟨rfl, hp, ?_, rfl, ?_, rfl⟩
  · rw [hp, hid]; exact h
  · rw [handle_response, if_neg]
    rw [hp, hid]; exact h

/-- Witness for C6 on a fresh client with no pending requests. -/
theorem claim6_request_timeout_witness :
    (send_request ⟨1, [], true⟩ none).failed_at = some 30 ∧
    (send_request ⟨1, [], true⟩ none).state.pending = [] ∧
    (send_request ⟨1, [], true⟩ none).id ∉ (send_request ⟨1, [], true⟩ none).state.pending ∧
    (send_request ⟨1, [], true⟩ none).state.ws_open = true ∧
    handle_response (send_request ⟨1, [], true⟩ none).state (send_request ⟨1, [], true⟩ none).id
      = ((send_request ⟨1, [], true⟩ none).state, false) ∧
    (send_request ⟨1, [], true⟩ none).state.message_id = 2 :=
  claim6_request_timeout ⟨1, [], true⟩ (by simp)

/-- C8 counterexample: the claim says the statistics start at zero at
process start and are reset only by a process restart, but
`load_metadata` — run during startup — restores the persisted `stats`
block, so a restart with an existing metadata file begins with the old,
non-zero counters. -/
theorem claim8_counterexample :
    (load_metadata (some ⟨[], some ⟨5, 2, 1, none⟩⟩) initial_manager).stats
      ≠ initial_stats := by
  decide

/-- C8 amended: the statistics are zero-initialised by the constructor,
but `load_metadata` adopts the persisted stats block when the metadata
file has one (so counters survive restarts); during the process's life
the executor only ever increases `files_synced` and `errors` and never
touches `conflicts_resolved`. -/
theorem claim8_stats_lifecycle :
    initial_manager.stats = ⟨0, 0, 0, none⟩ ∧
    (∀ st : ManagerState, load_metadata none st = st) ∧
    (∀ (st : ManagerState) (files : List (String × FileMetadata)) (s : Stats),
        (load_metadata (some ⟨files, some s⟩) st).stats = s) ∧
    (∀ (st : ManagerState) (files : List (String × FileMetadata)),
        (load_metadata (some ⟨files, none⟩) st).stats = st.stats) ∧
    (∀ (outcome : SyncAction → Bool) (stats : Stats) (actions : List SyncAction),
        stats.files_synced ≤ (execute_sync_actions outcome stats actions).files_synced ∧
        stats.errors ≤ (execute_sync_actions outcome stats actions).errors ∧
        (execute_sync_actions outcome stats actions).conflicts_resolved
          = stats.conflicts_resolved) := by
  refine ⟨rfl, fun st => rfl, fun st files s => rfl, fun st files => rfl, ?_⟩
  intro outcome stats actions
  obtain ⟨h1, h2, h3, -⟩ := execute_sync_actions_counts outcome stats actions
  exact ⟨h1 ▸ Nat.le_add_right _ _, h2 ▸ Nat.le_add_right _ _, h3⟩

/-- C9: a completed pass updates the snapshot only by merging in the
local scan: every previously stored path still has an entry afterwards,
every entry of the new snapshot comes from the local scan or from the
old snapshot, and the resulting snapshot does not depend on the remote
listing at all. -/
theorem claim9_snapshot_merges_local_only (env : PassEnv) (st : ManagerState) :
    (∀ p m, st.file_metadata p = some m →
        ∃ m', ((sync_files env st).1).file_metadata p = some m') ∧
    (∀ p, ((sync_files env st).1).file_metadata p = env.local_files.lookup p ∨
        ((sync_files env st).1).file_metadata p = st.file_metadata p) ∧
    (∀ (r₁ r₂ : List (String × FileMetadata)) (p : String),
        ((sync_files { env with remote_files := r₁ } st).1).file_metadata p =
        ((sync_files { env with remote_files := r₂ } st).1).file_metadata p) := by
  by_cases hs : st.is_syncing
  · refine ⟨fun p m h => ⟨m, ?_⟩, fun p => Or.inr ?_, fun r₁ r₂ p => ?_⟩
    · simpa [sync_files, hs] using h
    · simp [sync_files, hs]
    · simp [sync_files, hs]
  · refine ⟨fun p m h => ?_, fun p => ?_, fun r₁ r₂ p => ?_⟩
    · simp only [sync_files, hs, if_neg Bool.false_ne_true, run_pass, dict_update]
      cases hl : env.local_files.lookup p with
      | none => exact ⟨m, by simp [hl, h]⟩
      | some m' => exact ⟨m', by simp [hl]⟩
    · simp only [sync_files, hs, if_neg Bool.false_ne_true, run_pass, dict_update]
      cases hl : env.local_files.lookup p with
      | none => exact Or.inr (by simp [hl])
      | some m' => exact Or.inl (by simp [hl])
    · simp [sync_files, hs, run_pass, dict_update]

/-- Witness for C9: a pass that scans `a` locally keeps the stored entry
for `b` and adopts the scanned entry for `a`. -/
theorem claim9_snapshot_merges_local_only_witness :
    ∃ m', ((sync_files ⟨[("a", ⟨"a", 1, 0, "H", "unknown"⟩)], [], fun _ => true, "t"⟩
        ⟨false, fun p => if p = "b" then some ⟨"b", 1, 0, "G", "unknown"⟩ else none,
          initial_stats, "ask"⟩).1).file_metadata "b" = some m' :=
  (claim9_snapshot_merges_local_only
      ⟨[("a", ⟨"a", 1, 0, "H", "unknown"⟩)], [], fun _ => true, "t"⟩
      ⟨false, fun p => if p = "b" then some ⟨"b", 1, 0, "G", "unknown"⟩ else none,
        initial_stats, "ask"⟩).1 "b" ⟨"b", 1, 0, "G", "unknown"⟩ rfl

/-- Splitting a path at its last slash and re-concatenating gives the
path back. -/
lemma dirPart_append_lastComponent (p : String) : dirPart p ++ lastComponent p = p := by
  have hmk : ∀ a b : List Char, String.mk a ++ String.mk b = String.mk (a ++ b) :=
    fun a b => rfl
  unfold dirPart lastComponent
  rw [hmk, ← List.reverse_append, List.takeWhile_append_dropWhile, List.reverse_reverse]
  rfl

/-- Length form of the slash split. -/
lemma dirPart_length_add (p : String) :
    (dirPart p).length + (lastComponent p).length = p.length := by
  have h := congrArg String.length (dirPart_append_lastComponent p)
  rwa [String.length_append] at h

/-- A name's Python suffix is never longer than the name. -/
lemma pySuffixName_length_le (name : String) :
    (pySuffixName name).length ≤ name.length := by
  have hdrop : ∀ (l : List Char) (n : Nat),
      (String.mk (l.drop n)).length ≤ (String.mk l).length := by
    intro l n
    show (l.drop n).length ≤ l.length
    rw [List.length_drop]
    exact Nat.sub_le _ _
  unfold pySuffixName
  split_ifs with h
  · exact hdrop _ _
  · exact Nat.zero_le _

/-- The conflict-copy name is exactly 16 + |timestamp| characters longer
than the original path (the inserted `.conflict_local_` marker plus the
timestamp). -/
lemma conflict_name_length (p ts : String) :
    (conflict_name p ts).length = p.length + 16 + ts.length := by
  have hsplit := dirPart_length_add p
  have hle := pySuffixName_length_le (lastComponent p)
  have hstem : (String.mk ((lastComponent p).toList.take
      ((lastComponent p).toList.length - (pySuffixName (lastComponent p)).toList.length))).length
      = (lastComponent p).length - (pySuffixName (lastComponent p)).length := by
    show ((lastComponent p).toList.take _).length = _
    rw [List.length_take]
    exact Nat.min_eq_left (Nat.sub_le _ _)
  have h16 : (".conflict_local_" : String).length = 16 := rfl
  unfold conflict_name pyWithSuffix
  rw [String.length_append, String.length_append, String.length_append,
    String.length_append, hstem, h16]
  omega

/-- The conflict-copy name is never the original path. -/
lemma conflict_name_ne (p ts : String) : conflict_name p ts ≠ p := by
  intro h
  have h2 := congrArg String.length h
  rw [conflict_name_length] at h2
  omega

/-- C4: executing `keep_both` never loses the pre-conflict local bytes:
when the local file exists, its content is copied to the
conflict-suffixed name before the remote content is written at the
original path, so afterwards the aside copy exists and holds the
original content while the original path holds the remote version. -/
theorem claim4_keep_both_no_data_loss (fs : String → Option String)
    (p ts rc c : String) (h : fs p = some c) :
    create_conflict_copy fs p ts rc (conflict_name p ts) = some c ∧
    create_conflict_copy fs p ts rc p = some rc := by
  simp only [create_conflict_copy, h]
  constructor
  · simp [fsWrite, conflict_name_ne p ts]
  · simp [fsWrite]

/-- Witness for C4: the aside copy of `notes/a.md` carries its old
content and the original path carries the downloaded remote content. -/
theorem claim4_keep_both_no_data_loss_witness :
    create_conflict_copy (fun q => if q = "notes/a.md" then some "hello" else none)
        "notes/a.md" "20240101_120000" "remote"
        (conflict_name "notes/a.md" "20240101_120000") = some "hello" ∧
    create_conflict_copy (fun q => if q = "notes/a.md" then some "hello" else none)
        "notes/a.md" "20240101_120000" "remote" "notes/a.md" = some "remote" :=
  claim4_keep_both_no_data_loss _ "notes/a.md" "20240101_120000" "remote" "hello" rfl

/-- A path whose final component starts with a dot never appears among
the scanner's results. -/
lemma get_local_files_lookup_none (md5 : String → String) (entries : List LocalEntry)
    (p : String) (hp : startswith_dot (lastComponent p) = true) :
    (get_local_files md5 entries).lookup p = none := by
  induction entries with
  | nil => rfl
  | cons e rest ih =>
      rw [get_local_files, List.filter_cons]
      by_cases hf : (e.is_file && !(startswith_dot (lastComponent e.path))) = true
      · rw [if_pos hf, List.map_cons]
        have hne : (p == e.path) = false := by
          rw [beq_eq_false_iff_ne]
          rintro rfl
          simp [hp] at hf
        simp only [List.lookup, hne]
        exact ih
      · rw [if_neg hf]
        exact ih

/-- No branch of the delete-conflict handler uploads. -/
lemma handle_delete_conflict_not_upload (cr p ct : String) :
    (handle_delete_conflict cr p ct).action ≠ "upload" := by
  unfold handle_delete_conflict
  split_ifs
  · exact (by decide : ("skip" : String) ≠ "upload")
  · exact (by decide : ("delete_local" : String) ≠ "upload")
  · exact (by decide : ("delete_remote" : String) ≠ "upload")

/-- C10: a file whose name begins with a dot (such as
`.lokus-sync-metadata.json`) is omitted by the local scanner, makes the
local-change handler return without scheduling any single-file sync, and
— since the local side then never lists it — the planner never produces
an upload for it. -/
theorem claim10_dotfiles_never_synced_from_local (p : String)
    (hp : startswith_dot (lastComponent p) = true) :
    (∀ (md5 : String → String) (entries : List LocalEntry),
        (get_local_files md5 entries).lookup p = none) ∧
    (∀ (pending : List String) (local_exists : Bool),
        handle_local_change pending p local_exists = (pending, none)) ∧
    (∀ (cr : String) (rm sm : Option FileMetadata) (a : SyncAction),
        determine_sync_action cr p none rm sm = some a → a.action ≠ "upload") := by
  refine ⟨fun md5 entries => get_local_files_lookup_none md5 entries p hp, ?_, ?_⟩
  · intro pending local_exists
    rw [handle_local_change, if_pos hp]
  · intro cr rm sm a h
    cases rm <;> cases sm <;> simp only [determine_sync_action] at h
    · exact Option.noConfusion h
    · exact Option.noConfusion h
    · injection h with h; subst h
      exact (by decide : ("download" : String) ≠ "upload")
    · injection h with h; subst h
      exact handle_delete_conflict_not_upload cr p "local_deleted"

/-- Witness for C10 at the snapshot file's own name. -/
theorem claim10_dotfiles_never_synced_from_local_witness :
    (get_local_files (fun _ => "")
        [⟨".lokus-sync-metadata.json", true, 1, 0, "x"⟩]).lookup
      ".lokus-sync-metadata.json" = none ∧
    handle_local_change [] ".lokus-sync-metadata.json" true = ([], none) ∧
    (⟨"download", ".lokus-sync-metadata.json", "new_remote_file"⟩ : SyncAction).action
      ≠ "upload" :=
  ⟨(claim10_dotfiles_never_synced_from_local ".lokus-sync-metadata.json" (by decide)).1 _ _,
   (claim10_dotfiles_never_synced_from_local ".lokus-sync-metadata.json" (by decide)).2.1 [] true,
   (claim10_dotfiles_never_synced_from_local ".lokus-sync-metadata.json" (by decide)).2.2
     "ask" (some ⟨".lokus-sync-metadata.json", 0, 0, "", "unknown"⟩) none _ (by decide)⟩

end FileSync
